import Mathlib

/-!
Verification of the provenance/location subsystem of the pdtable repository
(src/pdtable/table_origin.py), as a shallow embedding in Lean 4.

Modelling conventions, stated once:
* Python str is String; Python int is Int; None/value optionals are Option.
* Paths are POSIX path strings, already normalized (Path string normalization
  and percent-encoding in Path.as_uri are elided: no claim depends on them;
  theorems about identifiers and URIs restrict to absolute paths, because
  Path.as_uri raises on relative paths in Python).
* datetime.datetime.fromtimestamp(st_mtime) is modelled as the record
  PyDateTime of calendar fields plus the microsecond field; datetime
  values carry sub-second precision, and isoformat with second precision
  drops the microsecond field exactly as Python does.
* Generators are modelled eagerly; a raise inside a generator or method is an
  Except.error carrying the message of the raised Python exception.
* Functions raising on some inputs return Except; pure ones return plain values.
-/

namespace PdTable

/-- The value datetime.datetime.fromtimestamp(stat_result.st_mtime) holds:
calendar fields down to seconds plus the microsecond field (st_mtime is a
float of seconds, so the recorded modification time has sub-second precision). -/
structure PyDateTime where
  year : Nat
  month : Nat
  day : Nat
  hour : Nat
  minute : Nat
  second : Nat
  microsecond : Nat
deriving DecidableEq, Repr

/-- Zero-padding of a rendered number to a field width, as datetime.isoformat does. -/
def zpad (w n : Nat) : String :=
  let s := toString n
  String.mk (List.replicate (w - s.length) '0') ++ s

/-- datetime.isoformat(timespec="seconds"): YYYY-MM-DDTHH:MM:SS, the
microsecond field dropped. -/
def PyDateTime.isoSeconds (d : PyDateTime) : String :=
  zpad 4 d.year ++ "-" ++ zpad 2 d.month ++ "-" ++ zpad 2 d.day ++ "T" ++
    zpad 2 d.hour ++ ":" ++ zpad 2 d.minute ++ ":" ++ zpad 2 d.second

/-- Whether a POSIX path string is absolute: it begins with a slash. -/
def isAbsolute (p : String) : Bool :=
  match p.data with
  | [] => false
  | c :: _ => c = '/'

/-- Path.absolute(): the path itself when absolute, else the working directory
prepended (Python resolves against os.getcwd(); the embedding passes cwd in). -/
def absoluteOf (cwd p : String) : String :=
  if isAbsolute p then p else cwd ++ "/" ++ p

/-- Path.as_uri() for an absolute POSIX path (percent-encoding of characters
outside the unreserved set is elided; Python raises ValueError on a relative
path, so theorems using asUri hypothesize isAbsolute). -/
def asUri (p : String) : String := "file://" ++ p

/-- Path.relative_to: the path with the root folder prefix removed. Python
raises ValueError when the path is not under the root; no claim exercises that
branch and it is modelled as returning the path unchanged. -/
def pathRelativeTo (p root : String) : String :=
  if p = root then "."
  else if (root.data ++ ['/']).isPrefixOf p.data then
    String.mk (p.data.drop (root.data.length + 1))
  else p

/-- LoadItem: the specification string and the source it was included from.
The backward chain through the source is not touched by any claim, so the
source is kept as its identifier only. -/
structure LoadItem where
  specification : String
  sourceIdentifier : Option String
deriving DecidableEq, Repr

/-- The two LocationFile implementations of table_origin.py:
* null: NullLocationFile, no physical backing; the stored load identifier is
  description plus a random suffix when not given (the randomness is passed in
  as the stored id, per the injectable-randomness design note);
* filesystem: FilesystemLocationFile with its local_path, load specification,
  optional root_folder for relative display, and the cached stat modification
  time (get_stat_result/get_mtime collapsed to the recorded PyDateTime). -/
inductive LocationFile where
  | null (load_specification : LoadItem) (id : String)
  | filesystem (local_path : String) (load_specification : LoadItem)
      (root_folder : Option String) (mtime : PyDateTime)
deriving DecidableEq, Repr

/-- load_identifier. Null: the stored identifier. Filesystem:
str(local_path.absolute()) + "@" + mtime.isoformat(timespec="seconds").
(The Python body guards "if mtime:" but a datetime is always truthy, so the
bare-path branch is dead code.) -/
def LocationFile.load_identifier (f : LocationFile) (cwd : String) : String :=
  match f with
  | .null _ id => id
  | .filesystem p _ _ m => absoluteOf cwd p ++ "@" ++ m.isoSeconds

/-- interactive_identifier with no sheet/row context. Null uses the base-class
default (the load identifier, no suffixes); Filesystem overrides it with the
path, relativized to root_folder when one is set. -/
def LocationFile.interactive_identifier (f : LocationFile) : String :=
  match f with
  | .null _ id => id
  | .filesystem p _ rf _ =>
    match rf with
    | none => p
    | some root => pathRelativeTo p root

/-- get_interactive_identifier(sheet, row). Null uses the base-class version:
load identifier plus " Sheet '<s>'" and " Row <r>" suffixes when given.
Filesystem overrides: "Row <r>" or "'<sheet>'!A<r>", then " of '<path>'"
(a missing row renders as the Python string None, as the f-string does). -/
def LocationFile.get_interactive_identifier (f : LocationFile)
    (sheet : Option String) (row : Option Int) : String :=
  match f with
  | .null _ id =>
    id ++ (match sheet with | none => "" | some s => " Sheet '" ++ s ++ "'")
       ++ (match row with | none => "" | some r => " Row " ++ toString r)
  | .filesystem _ _ _ _ =>
    let rowStr := match row with | none => "None" | some r => toString r
    let loc := match sheet with
      | none => "Row " ++ rowStr
      | some s => "'" ++ s ++ "'!A" ++ rowStr
    loc ++ " of '" ++ f.interactive_identifier ++ "'"

/-- interactive_uri(sheet, row). Null returns None. Filesystem: the file URI
alone when neither sheet nor row is given; else sheet defaults to Sheet1, the
row mark "!A<r>" is added only when a row is given, and the fragment
"#'<sheet>'<row-mark>" is appended. (The read_only argument is ignored by both
Python bodies and is left out.) -/
def LocationFile.interactive_uri (f : LocationFile)
    (sheet : Option String) (row : Option Int) : Option String :=
  match f with
  | .null _ _ => none
  | .filesystem p _ _ _ =>
    if sheet.isNone && row.isNone then some (asUri p)
    else
      let sheetStr := match sheet with | none => "Sheet1" | some s => s
      let rowMark := match row with | none => "" | some r => "!A" ++ toString r
      some (asUri p ++ "#'" ++ sheetStr ++ "'" ++ rowMark)

/-- LocationSheet: a named (or unnamed) sheet of a file, with its open
metadata mapping. -/
structure LocationSheet where
  file : LocationFile
  sheet_name : Option String
  sheet_metadata : List (String × String)
deriving DecidableEq, Repr

/-- LocationBlock: one row of a sheet. -/
structure LocationBlock where
  sheet : LocationSheet
  row : Int
deriving DecidableEq, Repr

def LocationBlock.file (b : LocationBlock) : LocationFile := b.sheet.file

def LocationBlock.sheet_name (b : LocationBlock) : Option String :=
  b.sheet.sheet_name

/-- Python "self.sheet_name or 'Sheet1'": None and the empty string are falsy
and fall back to Sheet1. -/
def orSheet1 : Option String → String
  | none => "Sheet1"
  | some s => if s = "" then "Sheet1" else s

/-- LocationBlock.load_identifier:
"<file load identifier>#'<sheet or Sheet1>'!A<row>". -/
def LocationBlock.load_identifier (b : LocationBlock) (cwd : String) : String :=
  b.file.load_identifier cwd ++ "#'" ++ orSheet1 b.sheet_name ++ "'!A" ++ toString b.row

/-- LocationBlock.interactive_identifier: delegates to the file with the
sheet and row context. -/
def LocationBlock.interactive_identifier (b : LocationBlock) : String :=
  b.file.get_interactive_identifier b.sheet_name (some b.row)

/-- LocationBlock.interactive_uri: delegates to the file with the sheet and
row context. -/
def LocationBlock.interactive_uri (b : LocationBlock) : Option String :=
  b.file.interactive_uri b.sheet_name (some b.row)

/-- TableOrigin: the provenance tree node, a frozen dataclass with the three
optional fields input_location, parents and operation. -/
inductive TableOrigin where
  | mk (input_location : Option LocationBlock) (parents : List TableOrigin)
      (operation : Option String)

def TableOrigin.input_location : TableOrigin → Option LocationBlock
  | .mk l _ _ => l

def TableOrigin.parents : TableOrigin → List TableOrigin
  | .mk _ p _ => p

def TableOrigin.operation : TableOrigin → Option String
  | .mk _ _ o => o

def TableOrigin.is_leaf (t : TableOrigin) : Bool := t.operation.isNone

/-- Construction of the dataclass TableOrigin: the generated init assigns the
three fields and runs no validation, because the check method in the source is
named with single underscores, which is not the dataclass post-init hook name,
so it is never invoked at construction time. -/
def TableOrigin.construct (input_location : Option LocationBlock)
    (parents : List TableOrigin) (operation : Option String) : TableOrigin :=
  TableOrigin.mk input_location parents operation

/-- The body of the misnamed validation method of TableOrigin: a leaf
(operation None) must have no parents and an input location; a branch must
have no input location and at least one parent. -/
def TableOrigin.postInitCheck (t : TableOrigin) : Except String Unit :=
  match t.operation with
  | none =>
    if !t.parents.isEmpty || t.input_location.isNone then
      Except.error "For TableOrigin leaf node, only input_location must be defined"
    else Except.ok ()
  | some _ =>
    if t.input_location.isSome || t.parents.isEmpty then
      Except.error "For TableOrigin branch node, only operation and parents should be defined"
    else Except.ok ()

mutual
/-- A valid provenance tree: the leaf/branch XOR invariant of the class
docstring holds at every node. -/
def TableOrigin.validB : TableOrigin → Bool
  | .mk loc ps op =>
    (match op with
     | none => loc.isSome && ps.isEmpty
     | some _ => loc.isNone && !ps.isEmpty) && TableOrigin.validListB ps

def TableOrigin.validListB : List TableOrigin → Bool
  | [] => true
  | p :: ps => TableOrigin.validB p && TableOrigin.validListB ps
end

mutual
/-- get_input_ancestors, materialized eagerly: a leaf yields its own location
(raising ValueError "Inconsistent state of TableOrigin" when it has none); a
branch chains the traversals of its parents in list order. -/
def TableOrigin.getInputAncestors : TableOrigin → Except String (List LocationBlock)
  | .mk loc ps op =>
    match op with
    | none =>
      match loc with
      | some l => Except.ok [l]
      | none => Except.error "Inconsistent state of TableOrigin"
    | some _ => TableOrigin.getInputAncestorsList ps

def TableOrigin.getInputAncestorsList : List TableOrigin → Except String (List LocationBlock)
  | [] => Except.ok []
  | p :: ps => do
    let a ← TableOrigin.getInputAncestors p
    let rest ← TableOrigin.getInputAncestorsList ps
    Except.ok (a ++ rest)
end

mutual
/-- The ancestor sequence of a valid tree, written from the spec sentences:
a leaf contributes exactly its own location; a branch contributes the
concatenation, in parent-list order, of its parents' sequences. -/
def ancestorsSpec : TableOrigin → List LocationBlock
  | .mk loc ps op =>
    match op with
    | none => (match loc with | some l => [l] | none => [])
    | some _ => ancestorsSpecList ps

def ancestorsSpecList : List TableOrigin → List LocationBlock
  | [] => []
  | p :: ps => ancestorsSpec p ++ ancestorsSpecList ps
end

/-- Python "sep.join(lines)" for sep = a newline. -/
def joinLines : List String → String
  | [] => ""
  | [s] => s
  | s :: rest => s ++ "\n" ++ joinLines rest

/-- Python f-string interpolation of an optional string: None renders as the
text None. -/
def optStr : Option String → String
  | none => "None"
  | some s => s

/-- The indentation of table_origin_as_str: two spaces per level. -/
def indentOf (lev : Nat) : String := String.mk (List.replicate (2 * lev) ' ')

mutual
/-- The visit of table_origin_as_str: the buffer of (level, text) lines in
visit order. The renderer dispatches on input_location being None (not on
operation): a node with a location is printed as that location's interactive
identifier, any other node as the derived-from header followed by its parents
one level deeper. -/
def strVisit : TableOrigin → Nat → List (Nat × String)
  | .mk (some l) _ _, lev => [(lev, l.interactive_identifier)]
  | .mk none ps op, lev =>
    (lev, "Derived via " ++ optStr op ++ " from:") :: strVisitList ps (lev + 1)

def strVisitList : List TableOrigin → Nat → List (Nat × String)
  | [], _ => []
  | p :: ps, lev => strVisit p lev ++ strVisitList ps lev
end

/-- table_origin_as_str: the buffered lines, each prefixed with two spaces per
level, joined by newlines; the top node is at level 0. -/
def table_origin_as_str (t : TableOrigin) : String :=
  joinLines ((strVisit t 0).map (fun ls => indentOf ls.1 ++ ls.2))

mutual
/-- The line-oriented rendering written from the spec sentences: a leaf
renders as its interactive identifier; a branch renders as the derived-from
header followed by each parent's rendering with every line indented one level
deeper, at two spaces per level. -/
def specLines : TableOrigin → List String
  | .mk (some l) _ _ => [l.interactive_identifier]
  | .mk none ps op =>
    ("Derived via " ++ optStr op ++ " from:")
      :: (specLinesList ps).map (fun s => "  " ++ s)

def specLinesList : List TableOrigin → List String
  | [] => []
  | p :: ps => specLines p ++ specLinesList ps
end

/-- One character of html.escape (quote=True): the five special characters
are replaced by their entities, every other character kept. Escaping a string
character by character agrees with the sequential str.replace calls of the
Python implementation, whose order prevents double escaping. -/
def escapeChar (c : Char) : String :=
  if c = '&' then "&amp;"
  else if c = '<' then "&lt;"
  else if c = '>' then "&gt;"
  else if c = Char.ofNat 34 then "&quot;"
  else if c = Char.ofNat 39 then "&#x27;"
  else String.singleton c

def htmlEscapeList : List Char → String
  | [] => ""
  | c :: cs => escapeChar c ++ htmlEscapeList cs

/-- html.escape with quote=True, as table_origin_as_html calls it. -/
def htmlEscape (s : String) : String := htmlEscapeList s.data

mutual
/-- The visit of table_origin_as_html. A node with an input location becomes
a link: the href attribute receives the interactive URI of the location as the
f-string renders it (None for a missing URI, and NOT passed through
html.escape), the link text the escaped interactive identifier. Any other
node becomes a div labeled with the escaped operation wrapping the list of its
parents; html.escape of a None operation raises in Python (TypeError), which
only an invalid node can reach. -/
def htmlVisit : TableOrigin → Except String String
  | .mk (some l) _ _ =>
    Except.ok ("<a href=\"" ++ optStr l.interactive_uri
      ++ "\" class=\"input-table-origin\">"
      ++ htmlEscape l.interactive_identifier ++ "</a>")
  | .mk none ps op =>
    match op with
    | none => Except.error "TypeError: expected str argument for escaping"
    | some opName => do
      let inner ← htmlVisitList ps
      Except.ok ("<div class=\"derived-table-origin\"><span>" ++ htmlEscape opName
        ++ "</span><ul>" ++ inner ++ "</ul></div>")

/-- The parents' items, each wrapped in li tags, joined by newlines. -/
def htmlVisitList : List TableOrigin → Except String String
  | [] => Except.ok ""
  | [p] => do
    let v ← htmlVisit p
    Except.ok ("<li>" ++ v ++ "</li>")
  | p :: ps => do
    let v ← htmlVisit p
    let rest ← htmlVisitList ps
    Except.ok ("<li>" ++ v ++ "</li>" ++ "\n" ++ rest)
end

def table_origin_as_html (t : TableOrigin) : Except String String := htmlVisit t

/-- Whether the first character list occurs as a contiguous run inside the
second (a substring test over the decoded characters). -/
def listContainsSub (needle : List Char) : List Char → Bool
  | [] => needle.isEmpty
  | c :: rest => needle.isPrefixOf (c :: rest) || listContainsSub needle rest

/-- A character that is inert inside markup text and double-quoted attribute
values: not an angle bracket and not a double quote. -/
def safeChar (c : Char) : Bool :=
  decide (c ≠ '<') && decide (c ≠ '>') && decide (c ≠ Char.ofNat 34)

/-- logging.WARNING of the Python standard library. -/
def logging_WARNING : Nat := 30

/-- logging.ERROR of the Python standard library. -/
def logging_ERROR : Nat := 40

/-- InputIssue: the reported message (a message or exception, collapsed to its
text) with whichever of load item, location file and origin is available, and
a logging severity (the dataclass default is logging.ERROR). -/
structure InputIssue where
  issue : String
  load_item : Option LoadItem
  location_file : Option LocationFile
  origin : Option TableOrigin
  severity : Nat

/-- InputError: the exception NullInputIssueTracker raises, wrapping the
issue it was given. -/
structure InputError where
  issue : InputIssue

/-- The base-class is_ok: true exactly when no recorded issue has severity at
least logging.ERROR. -/
def InputIssueTracker.is_ok (issues : List InputIssue) : Bool :=
  !(issues.any fun m => decide (logging_ERROR ≤ m.severity))

/-- The base-class add_error: builds an InputIssue with severity exactly
logging.ERROR and hands it to the add_issue primitive of the tracker. -/
def InputIssueTracker.add_error {α : Type} (add_issue : InputIssue → α)
    (issue : String) (load_item : Option LoadItem)
    (location_file : Option LocationFile) (origin : Option TableOrigin) : α :=
  add_issue ⟨issue, load_item, location_file, origin, logging_ERROR⟩

/-- The base-class add_warning: builds an InputIssue with severity exactly
logging.WARNING and hands it to the add_issue primitive of the tracker. -/
def InputIssueTracker.add_warning {α : Type} (add_issue : InputIssue → α)
    (issue : String) (load_item : Option LoadItem)
    (location_file : Option LocationFile) (origin : Option TableOrigin) : α :=
  add_issue ⟨issue, load_item, location_file, origin, logging_WARNING⟩

/-- NullInputIssueTracker.add_issue: raises InputError on every issue. The
tracker holds no state, so the outcome is the same however many add calls were
attempted before. -/
def NullInputIssueTracker.add_issue (issue : InputIssue) : Except InputError Unit :=
  Except.error ⟨issue⟩

/-- NullInputIssueTracker.issues: the empty tuple. -/
def NullInputIssueTracker.issues : List InputIssue := []

/-- NullInputIssueTracker.is_ok: the overriding property returning True. -/
def NullInputIssueTracker.is_ok : Bool := true

/-- A concrete null-backed location block used by witnesses: identifier A-ID,
row 1. -/
def blockA : LocationBlock := ⟨⟨.null ⟨"A", none⟩ "A-ID", none, []⟩, 1⟩

/-- A concrete null-backed location block used by witnesses: identifier B-ID,
row 2. -/
def blockB : LocationBlock := ⟨⟨.null ⟨"B", none⟩ "B-ID", none, []⟩, 2⟩

/-- A concrete filesystem location used by counterexamples and witnesses. -/
def cxFile : LocationFile :=
  .filesystem "/data/in.csv" ⟨"/data/in.csv", none⟩ none ⟨2023, 1, 1, 0, 0, 0, 0⟩

/-- A block of cxFile whose declared sheet name contains a double quote, at
row 5. -/
def cxBlock : LocationBlock := ⟨⟨cxFile, some "x\"y", []⟩, 5⟩

/-- The interactive URI of cxBlock: the sheet-name fragment carries the raw
double quote into the URI. -/
def cxUri : String := "file:///data/in.csv#'x\"y'!A5"

/-- The markup rendering of the leaf over cxBlock: href receives cxUri
verbatim, the link text the escaped identifier. -/
def cxOut : String :=
  "<a href=\"" ++ cxUri ++ "\" class=\"input-table-origin\">"
    ++ htmlEscape cxBlock.interactive_identifier ++ "</a>"

/-! Helper lemmas. -/

theorem str_append_left_cancel {a x y : String} (h : a ++ x = a ++ y) : x = y := by
  have hd := congrArg String.data h
  rw [String.data_append, String.data_append] at hd
  exact String.ext (List.append_cancel_left hd)

/-- Induction over a provenance tree: the motive holds at a node once it
holds at every parent. -/
theorem TableOrigin.nodeInduction {motive : TableOrigin → Prop}
    (step : ∀ (loc : Option LocationBlock) (ps : List TableOrigin) (op : Option String),
      (∀ p, p ∈ ps → motive p) → motive (TableOrigin.mk loc ps op)) :
    ∀ t, motive t
  | .mk loc ps op => step loc ps op (fun p hp => TableOrigin.nodeInduction step p)
termination_by t => sizeOf t
decreasing_by
  have := List.sizeOf_lt_of_mem hp
  simp_wf
  omega

theorem validListB_mem {ps : List TableOrigin} (h : TableOrigin.validListB ps = true) :
    ∀ p ∈ ps, TableOrigin.validB p = true := by
  induction ps with
  | nil => intro p hp; cases hp
  | cons q qs ih =>
    simp only [TableOrigin.validListB, Bool.and_eq_true] at h
    intro p hp
    cases hp with
    | head => exact h.1
    | tail _ hq => exact ih h.2 p hq

theorem ancList_ok (ps : List TableOrigin)
    (ih : ∀ p ∈ ps, TableOrigin.validB p = true →
      TableOrigin.getInputAncestors p = Except.ok (ancestorsSpec p))
    (h : TableOrigin.validListB ps = true) :
    TableOrigin.getInputAncestorsList ps = Except.ok (ancestorsSpecList ps) := by
  induction ps with
  | nil => rfl
  | cons q qs ihl =>
    simp only [TableOrigin.validListB, Bool.and_eq_true] at h
    have hq := ih q (by simp) h.1
    have hqs := ihl (fun p hp hv => ih p (List.mem_cons_of_mem q hp) hv) h.2
    show (do
      let a ← TableOrigin.getInputAncestors q
      let rest ← TableOrigin.getInputAncestorsList qs
      Except.ok (a ++ rest)) = Except.ok (ancestorsSpec q ++ ancestorsSpecList qs)
    rw [hq, hqs]
    rfl

/-- On a valid tree the traversal raises nothing and returns exactly the
spec-level ancestor sequence. -/
theorem anc_ok : ∀ t : TableOrigin, TableOrigin.validB t = true →
    TableOrigin.getInputAncestors t = Except.ok (ancestorsSpec t) := by
  intro t
  induction t using TableOrigin.nodeInduction with
  | step loc ps op ih =>
    intro h
    cases op with
    | none =>
      simp only [TableOrigin.validB, Bool.and_eq_true] at h
      obtain ⟨⟨hloc, hps⟩, _⟩ := h
      cases loc with
      | some l => simp [TableOrigin.getInputAncestors, ancestorsSpec]
      | none => simp at hloc
    | some o =>
      simp only [TableOrigin.validB, Bool.and_eq_true] at h
      simp only [TableOrigin.getInputAncestors, ancestorsSpec]
      exact ancList_ok ps ih h.2

theorem ancSpecList_flatten (ps : List TableOrigin) :
    ancestorsSpecList ps = (ps.map ancestorsSpec).flatten := by
  induction ps with
  | nil => rfl
  | cons q qs ih => simp [ancestorsSpecList, ih]

theorem indentOf_succ (n : Nat) : indentOf (n + 1) = indentOf n ++ "  " := by
  unfold indentOf
  rw [Nat.mul_succ, List.replicate_add]
  rfl

theorem indentOf_zero_append (s : String) : indentOf 0 ++ s = s := by
  cases s; rfl

theorem strVisitList_eq (ps : List TableOrigin)
    (ih : ∀ p ∈ ps, ∀ lev, (strVisit p lev).map (fun ls => indentOf ls.1 ++ ls.2)
      = (specLines p).map (fun s => indentOf lev ++ s)) :
    ∀ lev, (strVisitList ps lev).map (fun ls => indentOf ls.1 ++ ls.2)
      = (specLinesList ps).map (fun s => indentOf lev ++ s) := by
  induction ps with
  | nil => intro lev; rfl
  | cons q qs ihq =>
    intro lev
    simp only [strVisitList, specLinesList, List.map_append]
    rw [ih q (List.mem_cons_self q qs) lev,
      ihq (fun p hp => ih p (List.mem_cons_of_mem q hp))]

/-- The buffered visit at any level prints the spec-level lines of the node,
every line shifted by that level. -/
theorem strVisit_eq : ∀ t : TableOrigin, ∀ lev,
    (strVisit t lev).map (fun ls => indentOf ls.1 ++ ls.2)
      = (specLines t).map (fun s => indentOf lev ++ s) := by
  intro t
  induction t using TableOrigin.nodeInduction with
  | step loc ps op ih =>
    intro lev
    cases loc with
    | some l => simp [strVisit, specLines]
    | none =>
      simp only [strVisit, specLines, List.map_cons, List.map_map]
      refine congrArg (_ :: ·) ?_
      rw [strVisitList_eq ps ih (lev + 1)]
      refine List.map_congr_left ?_
      intro s _
      simp [Function.comp, indentOf_succ, String.append_assoc]

/-- table_origin_as_str agrees with the compositional spec-level rendering. -/
theorem as_str_spec (t : TableOrigin) : table_origin_as_str t = joinLines (specLines t) := by
  unfold table_origin_as_str
  rw [strVisit_eq t 0]
  refine congrArg joinLines ?_
  refine List.map_congr_left ?_ |>.trans (List.map_id _)
  intro s _
  exact indentOf_zero_append s

theorem escapeChar_safe (c : Char) : (escapeChar c).data.all safeChar = true := by
  unfold escapeChar
  split
  · rfl
  · split
    · rfl
    · split
      · rfl
      · split
        · rfl
        · split
          · rfl
          · simp [String.singleton, safeChar, *]

theorem htmlEscapeList_safe (cs : List Char) :
    (htmlEscapeList cs).data.all safeChar = true := by
  induction cs with
  | nil => rfl
  | cons c cs ih =>
    simp only [htmlEscapeList, String.data_append, List.all_append, Bool.and_eq_true]
    exact ⟨escapeChar_safe c, ih⟩

theorem htmlEscape_safe (s : String) : (htmlEscape s).data.all safeChar = true :=
  htmlEscapeList_safe s.data

/-! The claims. -/

/-- C1: the claim says constructing a TableOrigin in the illegal state (both
input_location and operation/parents set, or neither) raises at construction
time. It does not: the validation method is misnamed (single underscores, not
the dataclass post-init hook), so the dataclass init runs no check. Both
illegal states construct without error and violate the XOR invariant, while
the never-invoked check body would have rejected each of them. -/
theorem C1_construction_unchecked :
    TableOrigin.construct none [] none = TableOrigin.mk none [] none
  ∧ (TableOrigin.construct none [] none).validB = false
  ∧ TableOrigin.postInitCheck (TableOrigin.construct none [] none)
      = Except.error "For TableOrigin leaf node, only input_location must be defined"
  ∧ TableOrigin.construct (some blockA) [TableOrigin.mk (some blockA) [] none] (some "join")
      = TableOrigin.mk (some blockA) [TableOrigin.mk (some blockA) [] none] (some "join")
  ∧ (TableOrigin.mk (some blockA) [TableOrigin.mk (some blockA) [] none] (some "join")).validB = false
  ∧ TableOrigin.postInitCheck (TableOrigin.mk (some blockA)
        [TableOrigin.mk (some blockA) [] none] (some "join"))
      = Except.error "For TableOrigin branch node, only operation and parents should be defined" :=
  ⟨rfl, rfl, rfl, rfl, rfl, rfl⟩

/-- C2: for a filesystem location at an absolute path, the file load
identifier is the path, an at sign, and the ISO second-precision modification
time; a block over it with no sheet name appends the fragment with Sheet1, a
nonempty declared sheet name replaces Sheet1, and the end-to-end example of
the spec evaluates to the quoted identifier. -/
theorem C2_load_identifier (cwd p : String) (spec : LoadItem) (rf : Option String)
    (m : PyDateTime) (r : Int) (hp : isAbsolute p = true) :
    (LocationFile.filesystem p spec rf m).load_identifier cwd = p ++ "@" ++ m.isoSeconds
  ∧ (LocationBlock.mk ⟨LocationFile.filesystem p spec rf m, none, []⟩ r).load_identifier cwd
      = p ++ "@" ++ m.isoSeconds ++ "#'" ++ "Sheet1" ++ "'!A" ++ toString r
  ∧ (∀ s : String, s ≠ "" →
      (LocationBlock.mk ⟨LocationFile.filesystem p spec rf m, some s, []⟩ r).load_identifier cwd
        = p ++ "@" ++ m.isoSeconds ++ "#'" ++ s ++ "'!A" ++ toString r)
  ∧ (LocationBlock.mk ⟨LocationFile.filesystem "/data/input.csv" ⟨"/data/input.csv", none⟩ none
        ⟨2023, 1, 1, 0, 0, 0, 0⟩, none, []⟩ 5).load_identifier "/"
      = "/data/input.csv@2023-01-01T00:00:00#'Sheet1'!A5" := by
  refine ⟨?_, ?_, ?_, rfl⟩
  · simp [LocationFile.load_identifier, absoluteOf, hp]
  · simp [LocationBlock.load_identifier, LocationBlock.file, LocationBlock.sheet_name,
      orSheet1, LocationFile.load_identifier, absoluteOf, hp]
  · intro s hs
    simp [LocationBlock.load_identifier, LocationBlock.file, LocationBlock.sheet_name,
      orSheet1, hs, LocationFile.load_identifier, absoluteOf, hp]

/-- C2 witness: the identifier of the spec example, and of the same block
with declared sheet name Data, evaluated. -/
theorem C2_load_identifier_witness :
    (LocationBlock.mk ⟨LocationFile.filesystem "/data/input.csv" ⟨"/data/input.csv", none⟩ none
        ⟨2023, 1, 1, 0, 0, 0, 0⟩, none, []⟩ 5).load_identifier "/"
      = "/data/input.csv@2023-01-01T00:00:00#'Sheet1'!A5"
  ∧ (LocationBlock.mk ⟨LocationFile.filesystem "/data/input.csv" ⟨"/data/input.csv", none⟩ none
        ⟨2023, 1, 1, 0, 0, 0, 0⟩, some "Data", []⟩ 5).load_identifier "/"
      = "/data/input.csv@2023-01-01T00:00:00#'Data'!A5" := by
  have h := C2_load_identifier "/" "/data/input.csv" ⟨"/data/input.csv", none⟩ none
    ⟨2023, 1, 1, 0, 0, 0, 0⟩ 5 (by rfl)
  exact ⟨h.2.2.2, (h.2.2.1 "Data" (by decide)).trans (by rfl)⟩

/-- C3: on a valid node the traversal yields, for a leaf, exactly its own
location, and for a branch, the concatenation in parent-list order of the
parents' ancestor sequences (depth-first, duplicates kept, as ancestorsSpec
is defined); the traversal is a pure function of the node, so every
invocation is a fresh traversal and two calls are equal. -/
theorem C3_input_ancestors (t : TableOrigin) (h : t.validB = true) :
    (∀ l, t.operation = none → t.input_location = some l →
      t.getInputAncestors = Except.ok [l])
  ∧ t.getInputAncestors = Except.ok (ancestorsSpec t)
  ∧ (t.operation.isSome = true →
      ancestorsSpec t = (t.parents.map ancestorsSpec).flatten)
  ∧ t.getInputAncestors = t.getInputAncestors := by
  refine ⟨?_, anc_ok t h, ?_, rfl⟩
  · intro l hop hloc
    cases t with
    | mk loc ps op =>
      simp only [TableOrigin.operation] at hop
      simp only [TableOrigin.input_location] at hloc
      subst hop; subst hloc
      simp [TableOrigin.getInputAncestors]
  · intro hop
    cases t with
    | mk loc ps op =>
      cases op with
      | none => simp [TableOrigin.operation] at hop
      | some o =>
        simp only [ancestorsSpec, TableOrigin.parents]
        exact ancSpecList_flatten ps

/-- C3 witness: a merge of two leaves is valid and yields both locations in
parent order. -/
theorem C3_input_ancestors_witness :
    TableOrigin.validB (TableOrigin.mk none
      [TableOrigin.mk (some blockA) [] none, TableOrigin.mk (some blockB) [] none]
      (some "merge")) = true
  ∧ TableOrigin.getInputAncestors (TableOrigin.mk none
      [TableOrigin.mk (some blockA) [] none, TableOrigin.mk (some blockB) [] none]
      (some "merge")) = Except.ok [blockA, blockB] := by
  refine ⟨by rfl, ?_⟩
  have h := (C3_input_ancestors (TableOrigin.mk none
    [TableOrigin.mk (some blockA) [] none, TableOrigin.mk (some blockB) [] none]
    (some "merge")) (by rfl)).2.1
  exact h.trans (by rfl)

/-- C4 counterexample: two filesystem locations for the same path whose
recorded stat modification times differ only in the microsecond field have
equal load identifiers, so identifiers do NOT differ whenever the recorded
modification times differ. -/
theorem C4_subsecond_counterexample :
    (⟨2023, 1, 1, 0, 0, 0, 0⟩ : PyDateTime) ≠ (⟨2023, 1, 1, 0, 0, 0, 500000⟩ : PyDateTime)
  ∧ (LocationFile.filesystem "/data/input.csv" ⟨"/data/input.csv", none⟩ none
        ⟨2023, 1, 1, 0, 0, 0, 0⟩).load_identifier "/"
      = (LocationFile.filesystem "/data/input.csv" ⟨"/data/input.csv", none⟩ none
        ⟨2023, 1, 1, 0, 0, 0, 500000⟩).load_identifier "/" :=
  ⟨by decide, rfl⟩

/-- C4 as amended: for the same path, the load identifiers differ exactly
when the recorded modification times rendered at second precision (the ISO
form used inside the identifier) differ; sub-second differences are invisible. -/
theorem C4_identifier_second_precision (cwd p : String) (spec1 spec2 : LoadItem)
    (rf1 rf2 : Option String) (m1 m2 : PyDateTime) :
    (LocationFile.filesystem p spec1 rf1 m1).load_identifier cwd
        ≠ (LocationFile.filesystem p spec2 rf2 m2).load_identifier cwd
      ↔ m1.isoSeconds ≠ m2.isoSeconds := by
  simp only [LocationFile.load_identifier]
  constructor
  · intro h hiso
    exact h (by rw [hiso])
  · intro hiso h
    exact hiso (str_append_left_cancel h)

/-- C5: the fail-fast tracker raises InputError from add_issue on every
issue, hence from add_error and add_warning, which delegate through the
base-class wrappers; its issues sequence is empty and is_ok is true, both as
overridden and as the base class would compute it from the empty sequence. -/
theorem C5_null_tracker :
    (∀ i : InputIssue, NullInputIssueTracker.add_issue i = Except.error ⟨i⟩)
  ∧ (∀ (msg : String) (li : Option LoadItem) (lf : Option LocationFile)
        (o : Option TableOrigin),
      InputIssueTracker.add_error NullInputIssueTracker.add_issue msg li lf o
        = Except.error ⟨⟨msg, li, lf, o, logging_ERROR⟩⟩)
  ∧ (∀ (msg : String) (li : Option LoadItem) (lf : Option LocationFile)
        (o : Option TableOrigin),
      InputIssueTracker.add_warning NullInputIssueTracker.add_issue msg li lf o
        = Except.error ⟨⟨msg, li, lf, o, logging_WARNING⟩⟩)
  ∧ NullInputIssueTracker.issues = ([] : List InputIssue)
  ∧ NullInputIssueTracker.is_ok = true
  ∧ InputIssueTracker.is_ok NullInputIssueTracker.issues = true :=
  ⟨fun _ => rfl, fun _ _ _ _ => rfl, fun _ _ _ _ => rfl, rfl, rfl, rfl⟩

/-- C6: the text rendering equals the compositional spec rendering (leaf: its
interactive identifier; branch: the derived-from header, then each parent
indented one level deeper at two spaces per level, top level 0); a node with
a location renders as exactly that identifier, and a merge branch over two
leaves renders as exactly the three expected lines. -/
theorem C6_text_rendering (t : TableOrigin) (h : t.validB = true) :
    table_origin_as_str t = joinLines (specLines t)
  ∧ (∀ l, t.input_location = some l → table_origin_as_str t = l.interactive_identifier)
  ∧ (∀ (opName : String) (A B : LocationBlock),
      table_origin_as_str (TableOrigin.mk none
        [TableOrigin.mk (some A) [] none, TableOrigin.mk (some B) [] none] (some opName))
      = joinLines ["Derived via " ++ opName ++ " from:",
          "  " ++ A.interactive_identifier, "  " ++ B.interactive_identifier]) := by
  refine ⟨as_str_spec t, ?_, ?_⟩
  · intro l hl
    cases t with
    | mk loc ps op =>
      simp only [TableOrigin.input_location] at hl
      subst hl
      simp [table_origin_as_str, strVisit, joinLines, indentOf_zero_append]
  · intro opName A B
    rw [as_str_spec]
    simp [specLines, specLinesList, optStr]

/-- C6 witness: the merge of the two sample leaves, rendered. -/
theorem C6_text_rendering_witness :
    table_origin_as_str (TableOrigin.mk none
      [TableOrigin.mk (some blockA) [] none, TableOrigin.mk (some blockB) [] none]
      (some "merge"))
    = "Derived via merge from:\n  A-ID Row 1\n  B-ID Row 2" := by
  have h := (C6_text_rendering (TableOrigin.mk none
    [TableOrigin.mk (some blockA) [] none, TableOrigin.mk (some blockB) [] none]
    (some "merge")) (by rfl)).2.2 "merge" blockA blockB
  exact h.trans (by rfl)

/-- C7 as amended: in the markup rendering the leaf label and the branch
operation name are escaped before embedding (and escaped text holds no raw
angle bracket or double quote), but the link target is embedded verbatim,
without escaping. -/
theorem C7_markup_escaping :
    (∀ (b : LocationBlock) (ps : List TableOrigin) (op : Option String),
      table_origin_as_html (TableOrigin.mk (some b) ps op)
        = Except.ok ("<a href=\"" ++ optStr b.interactive_uri
            ++ "\" class=\"input-table-origin\">"
            ++ htmlEscape b.interactive_identifier ++ "</a>"))
  ∧ (∀ (opName : String) (ps : List TableOrigin) (inner : String),
      htmlVisitList ps = Except.ok inner →
      table_origin_as_html (TableOrigin.mk none ps (some opName))
        = Except.ok ("<div class=\"derived-table-origin\"><span>" ++ htmlEscape opName
            ++ "</span><ul>" ++ inner ++ "</ul></div>"))
  ∧ (∀ s : String, (htmlEscape s).data.all safeChar = true) := by
  refine ⟨fun _ _ _ => rfl, ?_, htmlEscape_safe⟩
  intro opName ps inner hin
  show htmlVisit (TableOrigin.mk none ps (some opName)) = _
  rw [htmlVisit]
  rw [hin]
  rfl

/-- C7 counterexample: a block whose declared sheet name holds a double quote
produces an interactive URI with a raw double quote; the markup embeds that
URI verbatim in the href attribute — the escaped form of the URI appears
nowhere in the output, refuting the claim that every embedded
user-controlled text, the link target included, is escaped. -/
theorem C7_unescaped_href_counterexample :
    cxBlock.interactive_uri = some cxUri
  ∧ table_origin_as_html (TableOrigin.mk (some cxBlock) [] none) = Except.ok cxOut
  ∧ cxUri.data.contains (Char.ofNat 34) = true
  ∧ htmlEscape cxUri ≠ cxUri
  ∧ listContainsSub (htmlEscape cxUri).data cxOut.data = false :=
  ⟨rfl, rfl, by decide, by decide, by decide⟩

/-- C8 as amended: with neither sheet nor row the filesystem interactive URI
is the file URI alone; with a row it appends the fragment with the row mark,
the sheet defaulting to Sheet1; with a sheet but no row it appends the
fragment WITHOUT a row mark; the null variant returns None for every
argument. -/
theorem C8_interactive_uri (p : String) (spec : LoadItem) (rf : Option String)
    (m : PyDateTime) (hp : isAbsolute p = true) :
    (LocationFile.filesystem p spec rf m).interactive_uri none none = some (asUri p)
  ∧ (∀ (s : String) (r : Int),
      (LocationFile.filesystem p spec rf m).interactive_uri (some s) (some r)
        = some (asUri p ++ "#'" ++ s ++ "'" ++ ("!A" ++ toString r)))
  ∧ (∀ r : Int,
      (LocationFile.filesystem p spec rf m).interactive_uri none (some r)
        = some (asUri p ++ "#'" ++ "Sheet1" ++ "'" ++ ("!A" ++ toString r)))
  ∧ (∀ s : String,
      (LocationFile.filesystem p spec rf m).interactive_uri (some s) none
        = some (asUri p ++ "#'" ++ s ++ "'"))
  ∧ (∀ (ld : LoadItem) (id : String) (sheet : Option String) (row : Option Int),
      (LocationFile.null ld id).interactive_uri sheet row = none) := by
  refine ⟨rfl, fun _ _ => rfl, fun _ => rfl, ?_, fun _ _ _ _ => rfl⟩
  intro s
  simp [LocationFile.interactive_uri, String.append_empty]

/-- C8 witness: the three URI shapes of the sample file, evaluated. -/
theorem C8_interactive_uri_witness :
    cxFile.interactive_uri none none = some "file:///data/in.csv"
  ∧ cxFile.interactive_uri none (some 5) = some "file:///data/in.csv#'Sheet1'!A5"
  ∧ cxFile.interactive_uri (some "S") (some 7) = some "file:///data/in.csv#'S'!A7" := by
  have h := C8_interactive_uri "/data/in.csv" ⟨"/data/in.csv", none⟩ none
    ⟨2023, 1, 1, 0, 0, 0, 0⟩ (by rfl)
  exact ⟨h.1.trans (by rfl), (h.2.2.1 5).trans (by rfl), (h.2.1 "S" 7).trans (by rfl)⟩

/-- C8 counterexample: with a sheet but no row the code appends a fragment
holding no row mark at all, refuting the claim that whenever sheet or row
context is present the appended fragment has the sheet-and-row form. -/
theorem C8_sheet_only_counterexample :
    cxFile.interactive_uri (some "S") none = some "file:///data/in.csv#'S'"
  ∧ listContainsSub "!A".data "file:///data/in.csv#'S'".data = false :=
  ⟨rfl, by decide⟩

/-- C9: the base-class is_ok is false exactly when some recorded issue has
severity at least logging.ERROR; add_error and add_warning both build an
issue of severity exactly ERROR resp. WARNING and delegate it to the
add_issue primitive, whatever the tracker behind it. -/
theorem C9_tracker_base :
    (∀ issues : List InputIssue,
      InputIssueTracker.is_ok issues = false ↔ ∃ m ∈ issues, logging_ERROR ≤ m.severity)
  ∧ (∀ (α : Type) (add_issue : InputIssue → α) (msg : String) (li : Option LoadItem)
        (lf : Option LocationFile) (o : Option TableOrigin),
      InputIssueTracker.add_error add_issue msg li lf o
        = add_issue ⟨msg, li, lf, o, logging_ERROR⟩)
  ∧ (∀ (α : Type) (add_issue : InputIssue → α) (msg : String) (li : Option LoadItem)
        (lf : Option LocationFile) (o : Option TableOrigin),
      InputIssueTracker.add_warning add_issue msg li lf o
        = add_issue ⟨msg, li, lf, o, logging_WARNING⟩)
  ∧ logging_WARNING < logging_ERROR := by
  refine ⟨?_, fun _ _ _ _ _ _ => rfl, fun _ _ _ _ _ _ => rfl, by decide⟩
  intro issues
  simp [InputIssueTracker.is_ok, List.any_eq_true]

/-- C10: constructing TableOrigin with all default arguments (the illegal
state with neither a location nor an operation) succeeds without error, the
node counts as a leaf, and traversing its input ancestors raises ValueError
instead of yielding any location. -/
theorem C10_default_construction :
    TableOrigin.construct none [] none = TableOrigin.mk none [] none
  ∧ (TableOrigin.construct none [] none).is_leaf = true
  ∧ (TableOrigin.construct none [] none).getInputAncestors
      = Except.error "Inconsistent state of TableOrigin" :=
  ⟨rfl, rfl, rfl⟩

end PdTable
